import Mathlib

/-!
Shallow embedding of the call-analytics pipeline in `audio_processing.py`
(genai-powered customer call analytics and agent performance system).

Modelling conventions:
- Python/JSON values are modelled by `JValue`; JSON numbers are modelled as
  integers (the pipeline only reads integer scores from them).
- Python dicts are modelled as association lists `List (String × JValue)`;
  `json.loads` produces dicts with unique keys, so first-match lookup is
  faithful.
- External effects (the generative-model call, the GCS upload, the audio
  decode, the two BigQuery insert jobs) are abstracted into a `PipelineEnv`
  record holding their outcomes; a Python exception is an `Except.error`.
- Python `str.strip()` is `pyStrip`, `str.lower()` is `pyLower`
  (the inputs of interest are ASCII).
-/

/-- Model of a Python/JSON value as produced by `json.loads`. -/
inductive JValue where
  | JNull : JValue
  | JBool : Bool → JValue
  | JNum : Int → JValue
  | JStr : String → JValue
  | JList : List JValue → JValue
  | JObj : List (String × JValue) → JValue
deriving Repr, BEq

/-- Model of Python dict `.get(key, default)` on an association list. -/
def jGet (data : List (String × JValue)) (key : String) (dflt : JValue) : JValue :=
  match data.find? (fun kv => kv.1 == key) with
  | some kv => kv.2
  | none => dflt

/-- Model of Python dict assignment `d[key] = v`: replace in place, else append. -/
def setKey (data : List (String × JValue)) (key : String) (v : JValue) :
    List (String × JValue) :=
  if data.any (fun kv => kv.1 == key) then
    data.map (fun kv => if kv.1 == key then (key, v) else kv)
  else data ++ [(key, v)]

/-- A single quote character, for Python repr rendering. -/
def squote : String := String.singleton (Char.ofNat 39)

/-- Model of Python `str.strip()`: drop whitespace at both ends. -/
def pyStrip (s : String) : String :=
  String.mk (((s.data.dropWhile Char.isWhitespace).reverse.dropWhile Char.isWhitespace).reverse)

/-- Model of Python `str.lower()` on the ASCII letters the pipeline compares. -/
def pyLower (s : String) : String :=
  String.mk (s.data.map Char.toLower)

mutual

/-- Model of Python `repr` on JSON values (used by `str` on containers). -/
def pyRepr : JValue → String
  | .JNull => "None"
  | .JBool true => "True"
  | .JBool false => "False"
  | .JNum n => toString n
  | .JStr s => squote ++ s ++ squote
  | .JList xs => "[" ++ pyReprList xs ++ "]"
  | .JObj kvs => "\x7b" ++ pyReprFields kvs ++ "\x7d"

/-- Comma-separated reprs of list elements. -/
def pyReprList : List JValue → String
  | [] => ""
  | [x] => pyRepr x
  | x :: xs => pyRepr x ++ ", " ++ pyReprList xs

/-- Comma-separated reprs of dict entries. -/
def pyReprFields : List (String × JValue) → String
  | [] => ""
  | [kv] => squote ++ kv.1 ++ squote ++ ": " ++ pyRepr kv.2
  | kv :: kvs => squote ++ kv.1 ++ squote ++ ": " ++ pyRepr kv.2 ++ ", " ++ pyReprFields kvs

end

/-- Model of Python `str()` on JSON values, as used in `f"- {item}"`. -/
def pyStr : JValue → String
  | .JStr s => s
  | v => pyRepr v

/-- Model of `re.sub(r"\D", "", s)`: keep only (ASCII) digits. -/
def stripNonDigits (s : String) : String :=
  String.mk (s.data.filter fun c => c.isDigit)

/-- Lean embedding of `clean_phone_number` (audio_processing.py:70-76).
`none` models Python `None`; `phone or ""` maps it to the empty string. -/
def clean_phone_number (phone : Option String) : String :=
  let digits := stripNonDigits (phone.getD "")
  if digits.length == 10 then digits
  else if 7 ≤ digits.length ∧ digits.length < 10 then "Incomplete phone number"
  else "Missing phone number"

/-- Lean embedding of `normalize_improvement_suggestions`
(audio_processing.py:78-89). -/
def normalize_improvement_suggestions (value : JValue) : String :=
  match value with
  | .JList xs => String.intercalate "\n" (xs.map fun item => "- " ++ pyStr item)
  | .JStr s => s
  | _ => ""

/-- Last index of character `c` in `cs`, if any. -/
def lastIdxOf (cs : List Char) (c : Char) : Option Nat :=
  match cs with
  | [] => none
  | a :: t =>
    match lastIdxOf t c with
    | some i => some (i + 1)
    | none => if a = c then some 0 else none

/-- Model of Python `pathlib.Path(p).name`: the part after the last slash. -/
def pathName (p : String) : String :=
  match lastIdxOf p.data (Char.ofNat 47) with
  | some i => String.mk (p.data.drop (i + 1))
  | none => p

/-- Model of Python `pathlib.Path(filename).stem`: drop the last suffix;
a dot at position 0 or at the very end does not start a suffix. -/
def pathStem (filename : String) : String :=
  let cs := filename.data
  match lastIdxOf cs (Char.ofNat 46) with
  | some i => if 0 < i ∧ i < cs.length - 1 then String.mk (cs.take i) else filename
  | none => filename

/-- Split a character list at the first `-`, if present
(model of `name.split("-", 1)` guarded by `"-" in name`). -/
def splitFirstDash (cs : List Char) : Option (List Char × List Char) :=
  match cs with
  | [] => none
  | c :: t =>
    if c = Char.ofNat 45 then some ([], t)
    else (splitFirstDash t).map fun p => (c :: p.1, p.2)

/-- Lean embedding of `extract_agent_from_filename`
(audio_processing.py:91-100). -/
def extract_agent_from_filename (filename : String) : String × String :=
  let name := pathStem filename
  match splitFirstDash name.data with
  | some lr => (pyStrip (String.mk lr.1), pyStrip (String.mk lr.2))
  | none => ("Unknown", "UNKNOWN_EMP")

/-- Lean embedding of `resolve_agent_identity` (audio_processing.py:204-214).
Python calls `.strip()` on `parsed_data.get("agent_name", "")`; when that
value is present but not a string, this raises `AttributeError`, modelled
as `Except.error`. -/
def resolve_agent_identity (parsed_data : List (String × JValue)) (filename : String) :
    Except String (String × String) :=
  match jGet parsed_data "agent_name" (.JStr "") with
  | .JStr s =>
    let spoken_name := pyStrip s
    let fe := extract_agent_from_filename filename
    let final_agent_name :=
      if spoken_name ≠ "" ∧ pyLower spoken_name ≠ "unknown" then spoken_name else fe.1
    .ok (final_agent_name, fe.2)
  | _ => .error "AttributeError: strip on non-string agent_name"

/-- Digits of an integer literal read left to right. -/
def digitsToNat (ds : List Char) : Nat :=
  ds.foldl (fun a c => a * 10 + (c.toNat - 48)) 0

/-- Model of Python `int(s)` on a string: strip whitespace, optional sign,
then a non-empty run of digits; anything else raises `ValueError`. -/
def parseIntString (s : String) : Option Int :=
  let cs := (pyStrip s).data
  let sd : Int × List Char :=
    match cs with
    | c :: t => if c = '-' then (-1, t) else if c = '+' then (1, t) else (1, cs)
    | [] => (1, [])
  if sd.2 ≠ [] ∧ sd.2.all Char.isDigit then some (sd.1 * (digitsToNat sd.2 : Int))
  else none

/-- Model of Python `int(x)` on a JSON value: numbers and booleans coerce,
numeric strings parse, everything else raises. -/
def pyInt : JValue → Except String Int
  | .JNum n => .ok n
  | .JBool b => .ok (if b then 1 else 0)
  | .JStr s =>
    match parseIntString s with
    | some n => .ok n
    | none => .error "ValueError: invalid literal for int"
  | .JNull => .error "TypeError: int of NoneType"
  | .JList _ => .error "TypeError: int of list"
  | .JObj _ => .error "TypeError: int of dict"

/-- First index at which `pat` occurs as a contiguous sublist, if any. -/
def findSubIdx (pat : List Char) : List Char → Option Nat
  | [] => if pat.isEmpty then some 0 else none
  | c :: t => if pat.isPrefixOf (c :: t) then some 0 else (findSubIdx pat t).map (· + 1)

/-- Model of `re.search(r"` + "```" + `json(.*?)` + "```" + `", raw, re.DOTALL)`:
the text between the first fence opener and the nearest closer after it. -/
def extractFence (raw : String) : Option String :=
  let s := raw.data
  match findSubIdx "```json".data s with
  | none => none
  | some i =>
    let rest := s.drop (i + 7)
    match findSubIdx "```".data rest with
    | none => none
    | some j => some (String.mk (rest.take j))

/-- The text handed to `json.loads` (audio_processing.py:184-188): the model
text stripped of outer whitespace, with a fenced code block unwrapped. -/
def fenceStripped (text : String) : String :=
  let raw := pyStrip text
  match extractFence raw with
  | some inner => pyStrip inner
  | none => raw

/-- Outcome of the `gemini_model.generate_content` call: either the raw
response text, or a raised exception rendered by `str(e)`. -/
inductive ModelResponse where
  | success : String → ModelResponse
  | failure : String → ModelResponse
deriving Repr

/-- Lean embedding of `transcribe_and_analyze_audio`
(audio_processing.py:117-202), abstracting the model call into a
`ModelResponse` and `json.loads` into a `jsonParse` parameter.
Every exception inside the `try` block is caught and rendered as an
`error` dict: a model failure, a parse success that is not a dict
(`.get` raises `AttributeError`), and a non-string non-null
`phone_number` (`re.sub` raises `TypeError`). -/
def transcribe_and_analyze_audio (jsonParse : String → Option JValue)
    (resp : ModelResponse) : List (String × JValue) :=
  match resp with
  | .failure msg => [("error", .JStr msg)]
  | .success text =>
    let raw := fenceStripped text
    match jsonParse raw with
    | none => [("error", .JStr "Invalid JSON"), ("raw_output", .JStr raw)]
    | some (.JObj fields) =>
      match jGet fields "phone_number" (.JStr "") with
      | .JStr p => setKey fields "phone_number" (.JStr (clean_phone_number (some p)))
      | .JNull => setKey fields "phone_number" (.JStr (clean_phone_number none))
      | _ => [("error", .JStr "TypeError: expected string or bytes-like object")]
    | some _ => [("error", .JStr "AttributeError: object has no attribute get")]

/-- Row loaded into the customer table (audio_processing.py:219-228). -/
structure CustomerRow where
  customer_id : Int
  phone_number : JValue
  problem_solved : JValue
  problem_type : JValue
  sentiment : JValue
  full_transcript : JValue
  call_gcs_uri : String
  created_at : String
deriving Repr

/-- Row loaded into the employee table (audio_processing.py:236-248). -/
structure EmployeeRow where
  employee_id : String
  agent_name : String
  customer_id : Int
  agent_tone : JValue
  empathy_score : Int
  clarity_score : Int
  interruption_behavior : JValue
  improvement_suggestions : String
  overall_agent_feedback : JValue
  call_duration_seconds : Int
  created_at : String
deriving Repr

/-- Lean embedding of `insert_customer_data` (audio_processing.py:216-230):
the row handed to the BigQuery load job; `datetime.now().isoformat()` is
the `now` parameter. Missing keys map to `None` (JNull). -/
def insert_customer_data (data : List (String × JValue)) (customer_id : Int)
    (gcs_uri : String) (now : String) : CustomerRow :=
  { customer_id := customer_id
    phone_number := jGet data "phone_number" .JNull
    problem_solved := jGet data "problem_solved" .JNull
    problem_type := jGet data "problem_type" .JNull
    sentiment := jGet data "sentiment" .JNull
    full_transcript := jGet data "full_transcript" .JNull
    call_gcs_uri := gcs_uri
    created_at := now }

/-- Lean embedding of `insert_employee_data` (audio_processing.py:233-250):
builds the employee row; `int(data.get("empathy_score", 0))` and
`int(data.get("clarity_score", 0))` raise on non-numeric values, modelled
as `Except.error`. -/
def insert_employee_data (data : List (String × JValue)) (customer_id : Int)
    (agent_name : String) (employee_id : String) (call_duration_seconds : Int)
    (now : String) : Except String EmployeeRow :=
  match pyInt (jGet data "empathy_score" (.JNum 0)) with
  | .error e => .error e
  | .ok es =>
    match pyInt (jGet data "clarity_score" (.JNum 0)) with
    | .error e => .error e
    | .ok cs =>
      .ok { employee_id := employee_id
            agent_name := agent_name
            customer_id := customer_id
            agent_tone := jGet data "agent_tone" .JNull
            empathy_score := es
            clarity_score := cs
            interruption_behavior := jGet data "interruption_behavior" .JNull
            improvement_suggestions :=
              normalize_improvement_suggestions (jGet data "improvement_suggestions" .JNull)
            overall_agent_feedback := jGet data "overall_agent_feedback" .JNull
            call_duration_seconds := call_duration_seconds
            created_at := now }

/-- Outcomes of the external collaborators for one pipeline run:
the GCS upload (`upload_file_to_gcs`), the generative-model call, the
`json.loads` parser, the generated random customer id, the audio decode
(`get_call_duration_seconds`), the two BigQuery load jobs, and the clock. -/
structure PipelineEnv where
  uploadResult : Except String (String × String)
  modelResponse : ModelResponse
  jsonParse : String → Option JValue
  customer_id : Int
  durationResult : Except String Int
  customerInsertError : Option String
  employeeInsertError : Option String
  now : String

/-- The dict returned by `process_local_file_and_upload` on success
(audio_processing.py:340-346). -/
structure CompositeResult where
  gs_uri : String
  customer_id : Int
  agent_name : String
  employee_id : String
  result : List (String × JValue)
deriving Repr

/-- A pipeline run: its returned value (or the propagated exception) plus
the rows actually persisted in each table. -/
structure PipelineOutcome where
  outcome : Except String CompositeResult
  customers : List CustomerRow
  employees : List EmployeeRow
deriving Repr

/-- Lean embedding of `process_local_file_and_upload`
(audio_processing.py:283-346): upload, analyze, generate id, decode
duration, resolve identity, insert customer row, insert employee row,
return the composite dict. A raised exception at any step propagates and
later steps do not run; a failed load job persists no row. -/
def process_local_file_and_upload (env : PipelineEnv) (local_path : String) :
    PipelineOutcome :=
  match env.uploadResult with
  | .error e => ⟨.error e, [], []⟩
  | .ok gsm =>
    let gs_uri := gsm.1
    let result := transcribe_and_analyze_audio env.jsonParse env.modelResponse
    let customer_id := env.customer_id
    match env.durationResult with
    | .error e => ⟨.error e, [], []⟩
    | .ok call_duration_seconds =>
      let filename := pathName local_path
      match resolve_agent_identity result filename with
      | .error e => ⟨.error e, [], []⟩
      | .ok ids =>
        let crow := insert_customer_data result customer_id gs_uri env.now
        match env.customerInsertError with
        | some e => ⟨.error e, [], []⟩
        | none =>
          match insert_employee_data result customer_id ids.1 ids.2
              call_duration_seconds env.now with
          | .error e => ⟨.error e, [crow], []⟩
          | .ok erow =>
            match env.employeeInsertError with
            | some e => ⟨.error e, [crow], []⟩
            | none => ⟨.ok ⟨gs_uri, customer_id, ids.1, ids.2, result⟩, [crow], [erow]⟩

/-- Whether a JSON value is a string (Python `isinstance(x, str)`). -/
def isStringValue : JValue → Bool
  | .JStr _ => true
  | _ => false

example : clean_phone_number (some "98-7654-3210") = "9876543210" := by decide
example : clean_phone_number (some "12345678") = "Incomplete phone number" := by decide
example : clean_phone_number none = "Missing phone number" := by decide
example : clean_phone_number (some "123456789012") = "Missing phone number" := by decide
example :
    normalize_improvement_suggestions (.JList [.JStr "Be concise", .JStr "Confirm details"])
      = "- Be concise\n- Confirm details" := by decide
example : extract_agent_from_filename "RohitSharma-EMP1023.wav" = ("RohitSharma", "EMP1023") := by
  decide
example : extract_agent_from_filename "callrecording.wav" = ("Unknown", "UNKNOWN_EMP") := by
  decide
example :
    resolve_agent_identity [("agent_name", .JStr " Unknown ")] "RohitSharma-EMP1023.wav"
      = .ok ("RohitSharma", "EMP1023") := rfl

example : fenceStripped "```json\nnot json\n```" = "not json" := rfl
example :
    transcribe_and_analyze_audio (fun _ => none) (.success "```json\nnot json\n```")
      = [("error", .JStr "Invalid JSON"), ("raw_output", .JStr "not json")] := rfl
example :
    (process_local_file_and_upload
      { uploadResult := .ok ("gs://b/k", "audio/wav")
        modelResponse := .failure "network error"
        jsonParse := fun _ => none
        customer_id := 12345
        durationResult := .ok 42
        customerInsertError := none
        employeeInsertError := none
        now := "t0" } "PriyaMenon-EMP5002.wav").outcome
    = .ok ⟨"gs://b/k", 12345, "PriyaMenon", "EMP5002",
        [("error", .JStr "network error")]⟩ := rfl

/-- C2: phone-number normalization strips all non-digit characters first,
returns the digits themselves on exactly 10 digits, "Incomplete phone
number" on 7 to 9 digits, and "Missing phone number" otherwise (fewer
than 7, more than 10, or absent input). -/
theorem clean_phone_number_cases (phone : Option String) :
    (((stripNonDigits (phone.getD "")).length = 10 →
        clean_phone_number phone = stripNonDigits (phone.getD "")) ∧
      (7 ≤ (stripNonDigits (phone.getD "")).length ∧
          (stripNonDigits (phone.getD "")).length ≤ 9 →
        clean_phone_number phone = "Incomplete phone number") ∧
      ((stripNonDigits (phone.getD "")).length < 7 ∨
          10 < (stripNonDigits (phone.getD "")).length →
        clean_phone_number phone = "Missing phone number")) ∧
    clean_phone_number none = "Missing phone number" := by
  refine ⟨⟨?_, ?_, ?_⟩, rfl⟩ <;> intro h
  · simp [clean_phone_number, h]
  · have h10 : ((stripNonDigits (phone.getD "")).length == 10) = false := by
      rw [beq_eq_false_iff_ne]; omega
    have h79 : 7 ≤ (stripNonDigits (phone.getD "")).length ∧
        (stripNonDigits (phone.getD "")).length < 10 := by omega
    simp only [clean_phone_number, h10, Bool.false_eq_true, if_false]
    rw [if_pos h79]
  · have h10 : ((stripNonDigits (phone.getD "")).length == 10) = false := by
      rw [beq_eq_false_iff_ne]; omega
    have h79 : ¬(7 ≤ (stripNonDigits (phone.getD "")).length ∧
        (stripNonDigits (phone.getD "")).length < 10) := by omega
    simp only [clean_phone_number, h10, Bool.false_eq_true, if_false]
    rw [if_neg h79]

/-- Witness for `clean_phone_number_cases` at a concrete 10-digit input. -/
theorem clean_phone_number_cases_witness :
    (stripNonDigits ((some "98-7654-3210" : Option String).getD "")).length = 10 ∧
    clean_phone_number (some "98-7654-3210")
      = stripNonDigits ((some "98-7654-3210" : Option String).getD "") :=
  ⟨by decide, (clean_phone_number_cases (some "98-7654-3210")).1.1 (by decide)⟩

/-- C8: improvement-suggestions normalization maps a list to "- item"
lines joined by newlines, passes a string through unchanged, and maps
null, booleans, numbers and objects to the empty string. -/
theorem normalize_improvement_suggestions_spec :
    normalize_improvement_suggestions
        (.JList [.JStr "Be concise", .JStr "Confirm details"])
      = "- Be concise\n- Confirm details" ∧
    (∀ ss : List String,
      normalize_improvement_suggestions (.JList (ss.map .JStr))
        = String.intercalate "\n" (ss.map fun s => "- " ++ s)) ∧
    (∀ s, normalize_improvement_suggestions (.JStr s) = s) ∧
    normalize_improvement_suggestions .JNull = "" ∧
    (∀ b, normalize_improvement_suggestions (.JBool b) = "") ∧
    (∀ n, normalize_improvement_suggestions (.JNum n) = "") ∧
    (∀ kvs, normalize_improvement_suggestions (.JObj kvs) = "") := by
  refine ⟨rfl, ?_, fun s => rfl, rfl, fun b => rfl, fun n => rfl, fun kvs => rfl⟩
  intro ss
  have hmap : ∀ l : List String,
      (l.map JValue.JStr).map (fun item => "- " ++ pyStr item)
        = l.map (fun s => "- " ++ s) := by
    intro l
    induction l with
    | nil => rfl
    | cons a t ih =>
      simp only [List.map_cons, ih]
      rfl
  simp only [normalize_improvement_suggestions, hmap]

/-- Helper: the value `resolve_agent_identity` computes when the agent
name read from the dict is the string `s`. -/
theorem resolve_eq_of_string (parsed_data : List (String × JValue)) (filename s : String)
    (h : jGet parsed_data "agent_name" (.JStr "") = .JStr s) :
    resolve_agent_identity parsed_data filename =
      .ok (if pyStrip s ≠ "" ∧ pyLower (pyStrip s) ≠ "unknown" then pyStrip s
            else (extract_agent_from_filename filename).1,
          (extract_agent_from_filename filename).2) := by
  unfold resolve_agent_identity
  rw [h]

/-- C3 counterexample: for the model-reported name " Unknown " (non-empty
and, taken verbatim, not case-insensitively equal to "unknown"), the
code does not pick it: it strips it first, finds "unknown", and falls
back to the filename-derived name. -/
theorem resolve_agent_identity_strips_cex :
    resolve_agent_identity [("agent_name", .JStr " Unknown ")] "RohitSharma-EMP1023.wav"
        = .ok ("RohitSharma", "EMP1023") ∧
    (" Unknown " : String) ≠ "" ∧
    pyLower " Unknown " ≠ "unknown" ∧
    ("RohitSharma" : String) ≠ " Unknown " :=
  ⟨rfl, by decide, by decide, by decide⟩

/-- C3 amended: identity resolution whitespace-strips the model-reported
name, picks the stripped name exactly when it is non-empty and not
case-insensitively equal to "unknown", otherwise the filename-derived
name; the employee id always comes from the filename. -/
theorem resolve_agent_identity_precedence (parsed_data : List (String × JValue))
    (filename s : String)
    (h : jGet parsed_data "agent_name" (.JStr "") = .JStr s) :
    resolve_agent_identity parsed_data filename =
      .ok (if pyStrip s ≠ "" ∧ pyLower (pyStrip s) ≠ "unknown" then pyStrip s
            else (extract_agent_from_filename filename).1,
          (extract_agent_from_filename filename).2) :=
  resolve_eq_of_string parsed_data filename s h

/-- Witness for `resolve_agent_identity_precedence` at a spoken name that wins. -/
theorem resolve_agent_identity_precedence_witness :
    resolve_agent_identity [("agent_name", .JStr "Anita")] "RohitSharma-EMP1023.wav" =
      .ok (if pyStrip "Anita" ≠ "" ∧ pyLower (pyStrip "Anita") ≠ "unknown" then pyStrip "Anita"
            else (extract_agent_from_filename "RohitSharma-EMP1023.wav").1,
          (extract_agent_from_filename "RohitSharma-EMP1023.wav").2) :=
  resolve_agent_identity_precedence [("agent_name", .JStr "Anita")]
    "RohitSharma-EMP1023.wav" "Anita" rfl

/-- C4 counterexample: an AnalysisResult whose agent_name is present but
not a string makes the Identity Resolver raise (Python `.strip()` on a
non-string raises AttributeError), so it is not free of error conditions
for such inputs. -/
theorem resolve_agent_identity_nonstring_cex :
    resolve_agent_identity [("agent_name", .JNum 5)] "RohitSharma-EMP1023.wav"
        = .error "AttributeError: strip on non-string agent_name" := rfl

/-- C4 amended: whenever agent_name is absent or a string (which covers
every error-shaped AnalysisResult), identity resolution always produces
a pair without raising, and defaults to ("Unknown", "UNKNOWN_EMP") when
the stripped name is empty or "unknown" and the filename has no "-". -/
theorem resolve_agent_identity_no_raise (parsed_data : List (String × JValue))
    (filename s : String)
    (h : jGet parsed_data "agent_name" (.JStr "") = .JStr s) :
    (∃ p, resolve_agent_identity parsed_data filename = .ok p) ∧
    ((pyStrip s = "" ∨ pyLower (pyStrip s) = "unknown") →
      splitFirstDash (pathStem filename).data = none →
      resolve_agent_identity parsed_data filename = .ok ("Unknown", "UNKNOWN_EMP")) := by
  constructor
  · exact ⟨_, resolve_eq_of_string parsed_data filename s h⟩
  · intro hname hdash
    have hcond : ¬(pyStrip s ≠ "" ∧ pyLower (pyStrip s) ≠ "unknown") := by
      rcases hname with h1 | h1 <;> simp [h1]
    have hfe : extract_agent_from_filename filename = ("Unknown", "UNKNOWN_EMP") := by
      simp [extract_agent_from_filename, hdash]
    rw [resolve_eq_of_string parsed_data filename s h, if_neg hcond, hfe]

/-- Witness for `resolve_agent_identity_no_raise` on an error-shaped
result and a filename without a separator. -/
theorem resolve_agent_identity_no_raise_witness :
    (∃ p, resolve_agent_identity [("error", .JStr "Invalid JSON")] "callrecording.wav"
        = .ok p) ∧
    resolve_agent_identity [("error", .JStr "Invalid JSON")] "callrecording.wav"
      = .ok ("Unknown", "UNKNOWN_EMP") := by
  have h := resolve_agent_identity_no_raise [("error", .JStr "Invalid JSON")]
    "callrecording.wav" "" rfl
  exact ⟨h.1, h.2 (Or.inl rfl) rfl⟩

/-- C9: the employee-row scores are integer-coerced at insert time; a
non-numeric string raises instead of defaulting, and numeric values land
unchanged in the row. -/
theorem employee_scores_coerced (data : List (String × JValue)) (cid : Int)
    (an eid : String) (dur : Int) (now : String) :
    (∀ s, jGet data "empathy_score" (.JNum 0) = .JStr s → parseIntString s = none →
      ∃ e, insert_employee_data data cid an eid dur now = .error e) ∧
    (∀ (em : Int) (s : String), jGet data "empathy_score" (.JNum 0) = .JNum em →
      jGet data "clarity_score" (.JNum 0) = .JStr s → parseIntString s = none →
      ∃ e, insert_employee_data data cid an eid dur now = .error e) ∧
    (∀ em cl : Int, jGet data "empathy_score" (.JNum 0) = .JNum em →
      jGet data "clarity_score" (.JNum 0) = .JNum cl →
      ∃ row, insert_employee_data data cid an eid dur now = .ok row ∧
        row.empathy_score = em ∧ row.clarity_score = cl) := by
  refine ⟨?_, ?_, ?_⟩
  · intro s hs hbad
    refine ⟨"ValueError: invalid literal for int", ?_⟩
    simp [insert_employee_data, hs, pyInt, hbad]
  · intro em s hem hs hbad
    refine ⟨"ValueError: invalid literal for int", ?_⟩
    simp [insert_employee_data, hem, hs, pyInt, hbad]
  · intro em cl hem hcl
    refine ⟨{ employee_id := eid, agent_name := an, customer_id := cid,
              agent_tone := jGet data "agent_tone" .JNull,
              empathy_score := em, clarity_score := cl,
              interruption_behavior := jGet data "interruption_behavior" .JNull,
              improvement_suggestions := normalize_improvement_suggestions
                (jGet data "improvement_suggestions" .JNull),
              overall_agent_feedback := jGet data "overall_agent_feedback" .JNull,
              call_duration_seconds := dur, created_at := now }, ?_, rfl, rfl⟩
    simp [insert_employee_data, hem, hcl, pyInt]

/-- Witness for `employee_scores_coerced`: the string "high" raises, and
numeric scores 4 and 5 are stored as 4 and 5. -/
theorem employee_scores_coerced_witness :
    (∃ e, insert_employee_data [("empathy_score", .JStr "high")] 1 "a" "e" 0 "t"
        = .error e) ∧
    (∃ row, insert_employee_data [("empathy_score", .JNum 4), ("clarity_score", .JNum 5)]
        1 "a" "e" 0 "t" = .ok row ∧ row.empathy_score = 4 ∧ row.clarity_score = 5) :=
  ⟨(employee_scores_coerced [("empathy_score", .JStr "high")] 1 "a" "e" 0 "t").1
      "high" rfl rfl,
    (employee_scores_coerced [("empathy_score", .JNum 4), ("clarity_score", .JNum 5)]
      1 "a" "e" 0 "t").2.2 4 5 rfl rfl⟩

/-- C10: when the empathy and clarity keys are absent from the analysis
dict (as in an error-shaped AnalysisResult), the employee row is built
with 0 for both scores rather than raising. -/
theorem employee_scores_default_zero (data : List (String × JValue)) (cid : Int)
    (an eid : String) (dur : Int) (now : String)
    (hes : data.find? (fun kv => kv.1 == "empathy_score") = none)
    (hcs : data.find? (fun kv => kv.1 == "clarity_score") = none) :
    ∃ row, insert_employee_data data cid an eid dur now = .ok row ∧
      row.empathy_score = 0 ∧ row.clarity_score = 0 := by
  refine ⟨{ employee_id := eid, agent_name := an, customer_id := cid,
            agent_tone := jGet data "agent_tone" .JNull,
            empathy_score := 0, clarity_score := 0,
            interruption_behavior := jGet data "interruption_behavior" .JNull,
            improvement_suggestions := normalize_improvement_suggestions
              (jGet data "improvement_suggestions" .JNull),
            overall_agent_feedback := jGet data "overall_agent_feedback" .JNull,
            call_duration_seconds := dur, created_at := now }, ?_, rfl, rfl⟩
  have hes2 : jGet data "empathy_score" (.JNum 0) = .JNum 0 := by simp [jGet, hes]
  have hcs2 : jGet data "clarity_score" (.JNum 0) = .JNum 0 := by simp [jGet, hcs]
  simp [insert_employee_data, hes2, hcs2, pyInt]

/-- Witness for `employee_scores_default_zero` on an error-shaped result. -/
theorem employee_scores_default_zero_witness :
    ∃ row, insert_employee_data [("error", .JStr "Invalid JSON"), ("raw_output", .JStr "oops")]
        9 "Unknown" "UNKNOWN_EMP" 42 "t" = .ok row ∧
      row.empathy_score = 0 ∧ row.clarity_score = 0 :=
  employee_scores_default_zero [("error", .JStr "Invalid JSON"), ("raw_output", .JStr "oops")]
    9 "Unknown" "UNKNOWN_EMP" 42 "t" rfl rfl

/-- Helper: the fields of a successfully built employee row. -/
theorem insert_employee_data_ok_fields (data : List (String × JValue)) (cid : Int)
    (an eid : String) (dur : Int) (now : String) (row : EmployeeRow)
    (h : insert_employee_data data cid an eid dur now = .ok row) :
    row.customer_id = cid ∧ row.employee_id = eid ∧ row.agent_name = an ∧
    row.improvement_suggestions
      = normalize_improvement_suggestions (jGet data "improvement_suggestions" .JNull) ∧
    row.call_duration_seconds = dur := by
  simp only [insert_employee_data] at h
  rcases h1 : pyInt (jGet data "empathy_score" (.JNum 0)) with e | es <;> rw [h1] at h
  · cases h
  rcases h2 : pyInt (jGet data "clarity_score" (.JNum 0)) with e | cs <;> rw [h2] at h
  · cases h
  cases h
  exact ⟨rfl, rfl, rfl, rfl, rfl⟩

/-- Helper: the pipeline outcome when every external step succeeds. -/
theorem process_eq_of_healthy (env : PipelineEnv) (local_path gsu mt : String) (d : Int)
    (ids : String × String) (erow : EmployeeRow)
    (hup : env.uploadResult = .ok (gsu, mt))
    (hdur : env.durationResult = .ok d)
    (hres : resolve_agent_identity
        (transcribe_and_analyze_audio env.jsonParse env.modelResponse)
        (pathName local_path) = .ok ids)
    (hci : env.customerInsertError = none)
    (hemp : insert_employee_data
        (transcribe_and_analyze_audio env.jsonParse env.modelResponse)
        env.customer_id ids.1 ids.2 d env.now = .ok erow)
    (hei : env.employeeInsertError = none) :
    process_local_file_and_upload env local_path =
      ⟨.ok ⟨gsu, env.customer_id, ids.1, ids.2,
          transcribe_and_analyze_audio env.jsonParse env.modelResponse⟩,
        [insert_customer_data
          (transcribe_and_analyze_audio env.jsonParse env.modelResponse)
          env.customer_id gsu env.now],
        [erow]⟩ := by
  simp only [process_local_file_and_upload, hup, hdur, hres, hci, hemp, hei]

/-- C1 counterexample: a fenced non-JSON model response yields the error
result, but `raw_output` holds the fence-extracted text, not the original
response text verbatim. -/
theorem invalid_json_raw_output_cex :
    transcribe_and_analyze_audio (fun _ => none) (.success "```json\nnot json\n```")
        = [("error", .JStr "Invalid JSON"), ("raw_output", .JStr "not json")] ∧
    ("not json" : String) ≠ "```json\nnot json\n```" := ⟨rfl, by decide⟩

/-- C1 amended: on a model response whose text (after outer whitespace
strip and fence extraction) is not valid JSON, the parser returns
error = "Invalid JSON" with that stripped text under raw_output, does
not raise, and — given healthy upload, duration and inserts — the
pipeline still completes with a composite result embedding it. -/
theorem invalid_json_error_shape (env : PipelineEnv) (local_path text gsu mt : String)
    (d : Int)
    (hresp : env.modelResponse = .success text)
    (hparse : env.jsonParse (fenceStripped text) = none)
    (hup : env.uploadResult = .ok (gsu, mt))
    (hdur : env.durationResult = .ok d)
    (hci : env.customerInsertError = none)
    (hei : env.employeeInsertError = none) :
    transcribe_and_analyze_audio env.jsonParse env.modelResponse
        = [("error", .JStr "Invalid JSON"), ("raw_output", .JStr (fenceStripped text))] ∧
    ∃ comp : CompositeResult,
      (process_local_file_and_upload env local_path).outcome = .ok comp ∧
      comp.result = [("error", .JStr "Invalid JSON"),
        ("raw_output", .JStr (fenceStripped text))] := by
  have htr : transcribe_and_analyze_audio env.jsonParse env.modelResponse
      = [("error", .JStr "Invalid JSON"), ("raw_output", .JStr (fenceStripped text))] := by
    rw [hresp]
    simp only [transcribe_and_analyze_audio, hparse]
  refine ⟨htr, ?_⟩
  have hag : jGet [("error", JValue.JStr "Invalid JSON"),
      ("raw_output", JValue.JStr (fenceStripped text))] "agent_name" (.JStr "")
      = .JStr "" := by simp [jGet]
  have hres : resolve_agent_identity
      (transcribe_and_analyze_audio env.jsonParse env.modelResponse)
      (pathName local_path)
      = .ok ((extract_agent_from_filename (pathName local_path)).1,
        (extract_agent_from_filename (pathName local_path)).2) := by
    rw [htr, resolve_eq_of_string _ _ _ hag]
    have hc : ¬(pyStrip "" ≠ "" ∧ pyLower (pyStrip "") ≠ "unknown") := by decide
    rw [if_neg hc]
  have hemp : insert_employee_data
      (transcribe_and_analyze_audio env.jsonParse env.modelResponse)
      env.customer_id
      ((extract_agent_from_filename (pathName local_path)).1,
        (extract_agent_from_filename (pathName local_path)).2).1
      ((extract_agent_from_filename (pathName local_path)).1,
        (extract_agent_from_filename (pathName local_path)).2).2
      d env.now
      = .ok ⟨(extract_agent_from_filename (pathName local_path)).2,
          (extract_agent_from_filename (pathName local_path)).1,
          env.customer_id, .JNull, 0, 0, .JNull, "", .JNull, d, env.now⟩ := by
    rw [htr]
    simp [insert_employee_data, jGet, pyInt, normalize_improvement_suggestions]
  have hproc := process_eq_of_healthy env local_path gsu mt d
    ((extract_agent_from_filename (pathName local_path)).1,
      (extract_agent_from_filename (pathName local_path)).2)
    ⟨(extract_agent_from_filename (pathName local_path)).2,
      (extract_agent_from_filename (pathName local_path)).1,
      env.customer_id, .JNull, 0, 0, .JNull, "", .JNull, d, env.now⟩
    hup hdur hres hci hemp hei
  refine ⟨⟨gsu, env.customer_id,
      (extract_agent_from_filename (pathName local_path)).1,
      (extract_agent_from_filename (pathName local_path)).2,
      transcribe_and_analyze_audio env.jsonParse env.modelResponse⟩, ?_, htr⟩
  rw [hproc]

/-- Witness for `invalid_json_error_shape` on a fenced non-JSON response
with healthy upload, duration and inserts. -/
theorem invalid_json_error_shape_witness :
    transcribe_and_analyze_audio (fun _ => none)
        (.success "```json\nnot json\n```")
      = [("error", .JStr "Invalid JSON"),
          ("raw_output", .JStr (fenceStripped "```json\nnot json\n```"))] ∧
    ∃ comp : CompositeResult,
      (process_local_file_and_upload
        { uploadResult := .ok ("gs://b/k", "audio/wav"),
          modelResponse := .success "```json\nnot json\n```",
          jsonParse := fun _ => none, customer_id := 11,
          durationResult := .ok 7, customerInsertError := none,
          employeeInsertError := none, now := "t1" } "RohitSharma-EMP1023.wav").outcome
        = .ok comp ∧
      comp.result = [("error", .JStr "Invalid JSON"),
        ("raw_output", .JStr (fenceStripped "```json\nnot json\n```"))] :=
  invalid_json_error_shape
    { uploadResult := .ok ("gs://b/k", "audio/wav"),
      modelResponse := .success "```json\nnot json\n```",
      jsonParse := fun _ => none, customer_id := 11,
      durationResult := .ok 7, customerInsertError := none,
      employeeInsertError := none, now := "t1" }
    "RohitSharma-EMP1023.wav" "```json\nnot json\n```" "gs://b/k" "audio/wav" 7
    rfl rfl rfl rfl rfl rfl

/-- C5 counterexample: a model-invocation failure does not abort the
pipeline; it is caught, converted into an error-shaped result, and the
run completes and persists one customer row and one employee row. -/
theorem model_failure_persists_cex :
    process_local_file_and_upload
      { uploadResult := .ok ("gs://b/k", "audio/wav"),
        modelResponse := .failure "quota exceeded",
        jsonParse := fun _ => none, customer_id := 54321,
        durationResult := .ok 42, customerInsertError := none,
        employeeInsertError := none, now := "t0" } "PriyaMenon-EMP5002.wav"
      = ⟨.ok ⟨"gs://b/k", 54321, "PriyaMenon", "EMP5002",
            [("error", .JStr "quota exceeded")]⟩,
          [⟨54321, .JNull, .JNull, .JNull, .JNull, .JNull, "gs://b/k", "t0"⟩],
          [⟨"EMP5002", "PriyaMenon", 54321, .JNull, 0, 0, .JNull, "", .JNull, 42, "t0"⟩]⟩ :=
  rfl

/-- C5 amended: storage-upload and structured-store failures are not
retried and propagate, aborting the pipeline with no persistence beyond
inserts already completed; a model-invocation failure, by contrast, is
caught and converted into an error-shaped result, and the pipeline
completes and persists both rows. -/
theorem upstream_failure_propagation (env : PipelineEnv) (local_path msg : String) :
    (env.uploadResult = .error msg →
      process_local_file_and_upload env local_path = ⟨.error msg, [], []⟩) ∧
    (env.customerInsertError = some msg →
      (∃ e, (process_local_file_and_upload env local_path).outcome = .error e) ∧
      (process_local_file_and_upload env local_path).customers = [] ∧
      (process_local_file_and_upload env local_path).employees = []) ∧
    (env.employeeInsertError = some msg →
      (∃ e, (process_local_file_and_upload env local_path).outcome = .error e) ∧
      (process_local_file_and_upload env local_path).employees = []) ∧
    (∀ m, env.modelResponse = .failure m →
      transcribe_and_analyze_audio env.jsonParse env.modelResponse
          = [("error", .JStr m)] ∧
      (∀ gsu mt d, env.uploadResult = .ok (gsu, mt) → env.durationResult = .ok d →
        env.customerInsertError = none → env.employeeInsertError = none →
        ∃ comp, (process_local_file_and_upload env local_path).outcome = .ok comp ∧
          (process_local_file_and_upload env local_path).customers.length = 1 ∧
          (process_local_file_and_upload env local_path).employees.length = 1)) := by
  refine ⟨?_, ?_, ?_, ?_⟩
  · intro h
    simp only [process_local_file_and_upload, h]
  · intro h
    rcases hu : env.uploadResult with e | gsm
    · refine ⟨⟨e, ?_⟩, ?_, ?_⟩ <;> simp [process_local_file_and_upload, hu]
    rcases hd : env.durationResult with e | dd
    · refine ⟨⟨e, ?_⟩, ?_, ?_⟩ <;> simp [process_local_file_and_upload, hu, hd]
    rcases hr : resolve_agent_identity
        (transcribe_and_analyze_audio env.jsonParse env.modelResponse)
        (pathName local_path) with e | ids
    · refine ⟨⟨e, ?_⟩, ?_, ?_⟩ <;> simp [process_local_file_and_upload, hu, hd, hr]
    · refine ⟨⟨msg, ?_⟩, ?_, ?_⟩ <;> simp [process_local_file_and_upload, hu, hd, hr, h]
  · intro h
    rcases hu : env.uploadResult with e | gsm
    · refine ⟨⟨e, ?_⟩, ?_⟩ <;> simp [process_local_file_and_upload, hu]
    rcases hd : env.durationResult with e | dd
    · refine ⟨⟨e, ?_⟩, ?_⟩ <;> simp [process_local_file_and_upload, hu, hd]
    rcases hr : resolve_agent_identity
        (transcribe_and_analyze_audio env.jsonParse env.modelResponse)
        (pathName local_path) with e | ids
    · refine ⟨⟨e, ?_⟩, ?_⟩ <;> simp [process_local_file_and_upload, hu, hd, hr]
    rcases hci : env.customerInsertError with _ | e
    swap
    · refine ⟨⟨e, ?_⟩, ?_⟩ <;> simp [process_local_file_and_upload, hu, hd, hr, hci]
    rcases hemp : insert_employee_data
        (transcribe_and_analyze_audio env.jsonParse env.modelResponse)
        env.customer_id ids.1 ids.2 dd env.now with e | erow
    · refine ⟨⟨e, ?_⟩, ?_⟩ <;>
        simp [process_local_file_and_upload, hu, hd, hr, hci, hemp]
    · refine ⟨⟨msg, ?_⟩, ?_⟩ <;>
        simp [process_local_file_and_upload, hu, hd, hr, hci, hemp, h]
  · intro m hm
    have htr : transcribe_and_analyze_audio env.jsonParse env.modelResponse
        = [("error", .JStr m)] := by
      rw [hm]
      rfl
    refine ⟨htr, ?_⟩
    intro gsu mt dd hup hdur hci hei
    have hag : jGet [("error", JValue.JStr m)] "agent_name" (.JStr "")
        = .JStr "" := by simp [jGet]
    have hres : resolve_agent_identity
        (transcribe_and_analyze_audio env.jsonParse env.modelResponse)
        (pathName local_path)
        = .ok ((extract_agent_from_filename (pathName local_path)).1,
            (extract_agent_from_filename (pathName local_path)).2) := by
      rw [htr, resolve_eq_of_string _ _ _ hag]
      have hc : ¬(pyStrip "" ≠ "" ∧ pyLower (pyStrip "") ≠ "unknown") := by decide
      rw [if_neg hc]
    have hemp : insert_employee_data
        (transcribe_and_analyze_audio env.jsonParse env.modelResponse)
        env.customer_id
        ((extract_agent_from_filename (pathName local_path)).1,
          (extract_agent_from_filename (pathName local_path)).2).1
        ((extract_agent_from_filename (pathName local_path)).1,
          (extract_agent_from_filename (pathName local_path)).2).2
        dd env.now
        = .ok ⟨(extract_agent_from_filename (pathName local_path)).2,
            (extract_agent_from_filename (pathName local_path)).1,
            env.customer_id, .JNull, 0, 0, .JNull, "", .JNull, dd, env.now⟩ := by
      rw [htr]
      simp [insert_employee_data, jGet, pyInt, normalize_improvement_suggestions]
    have hproc := process_eq_of_healthy env local_path gsu mt dd
      ((extract_agent_from_filename (pathName local_path)).1,
        (extract_agent_from_filename (pathName local_path)).2)
      ⟨(extract_agent_from_filename (pathName local_path)).2,
        (extract_agent_from_filename (pathName local_path)).1,
        env.customer_id, .JNull, 0, 0, .JNull, "", .JNull, dd, env.now⟩
      hup hdur hres hci hemp hei
    refine ⟨⟨gsu, env.customer_id,
        (extract_agent_from_filename (pathName local_path)).1,
        (extract_agent_from_filename (pathName local_path)).2,
        transcribe_and_analyze_audio env.jsonParse env.modelResponse⟩,
      ?_, ?_, ?_⟩ <;> rw [hproc] <;> rfl

/-- Witness for `upstream_failure_propagation`: an upload failure aborts
with no inserts, and a model failure with healthy collaborators ends in
a composite result with one row persisted per table. -/
theorem upstream_failure_propagation_witness :
    process_local_file_and_upload
      { uploadResult := .error "boom", modelResponse := .failure "x",
        jsonParse := fun _ => none, customer_id := 1, durationResult := .ok 1,
        customerInsertError := none, employeeInsertError := none,
        now := "t" } "a.wav"
      = ⟨.error "boom", [], []⟩ ∧
    ∃ comp, (process_local_file_and_upload
      { uploadResult := .ok ("g", "audio/wav"), modelResponse := .failure "quota",
        jsonParse := fun _ => none, customer_id := 2, durationResult := .ok 3,
        customerInsertError := none, employeeInsertError := none,
        now := "t" } "B-C.wav").outcome = .ok comp ∧
      (process_local_file_and_upload
        { uploadResult := .ok ("g", "audio/wav"), modelResponse := .failure "quota",
          jsonParse := fun _ => none, customer_id := 2, durationResult := .ok 3,
          customerInsertError := none, employeeInsertError := none,
          now := "t" } "B-C.wav").customers.length = 1 ∧
      (process_local_file_and_upload
        { uploadResult := .ok ("g", "audio/wav"), modelResponse := .failure "quota",
          jsonParse := fun _ => none, customer_id := 2, durationResult := .ok 3,
          customerInsertError := none, employeeInsertError := none,
          now := "t" } "B-C.wav").employees.length = 1 :=
  ⟨(upstream_failure_propagation
      { uploadResult := .error "boom", modelResponse := .failure "x",
        jsonParse := fun _ => none, customer_id := 1, durationResult := .ok 1,
        customerInsertError := none, employeeInsertError := none,
        now := "t" } "a.wav" "boom").1 rfl,
    ((upstream_failure_propagation
      { uploadResult := .ok ("g", "audio/wav"), modelResponse := .failure "quota",
        jsonParse := fun _ => none, customer_id := 2, durationResult := .ok 3,
        customerInsertError := none, employeeInsertError := none,
        now := "t" } "B-C.wav" "quota").2.2.2 "quota" rfl).2
      "g" "audio/wav" 3 rfl rfl rfl rfl⟩

/-- C6 counterexample: on a parse success where the model supplied a list
for improvement_suggestions, the result returned by the parser still
carries the list, not a single bullet-joined string. -/
theorem parser_keeps_suggestions_list_cex :
    jGet (transcribe_and_analyze_audio
        (fun s => if s = "OK"
          then some (.JObj [("phone_number", .JStr "98-7654-3210"),
            ("improvement_suggestions",
              .JList [.JStr "Be concise", .JStr "Confirm details"])])
          else none)
        (.success "OK"))
      "improvement_suggestions" .JNull
      = .JList [.JStr "Be concise", .JStr "Confirm details"] ∧
    isStringValue (.JList [.JStr "Be concise", .JStr "Confirm details"]) = false :=
  ⟨rfl, rfl⟩

/-- C6 amended: on parse success the parser normalizes only the
phone-number field of the AnalysisResult; improvement_suggestions is
normalized to a single string later, by the Persistence Writer, when the
EmployeeRecord row is built. -/
theorem normalization_split (jsonParse : String → Option JValue) (text p : String)
    (fields : List (String × JValue))
    (hp : jsonParse (fenceStripped text) = some (.JObj fields))
    (hphone : jGet fields "phone_number" (.JStr "") = .JStr p) :
    transcribe_and_analyze_audio jsonParse (.success text)
        = setKey fields "phone_number" (.JStr (clean_phone_number (some p))) ∧
    (∀ data cid an eid dur now row,
      insert_employee_data data cid an eid dur now = .ok row →
      row.improvement_suggestions =
        normalize_improvement_suggestions (jGet data "improvement_suggestions" .JNull)) := by
  constructor
  · simp only [transcribe_and_analyze_audio, hp, hphone]
  · intro data cid an eid dur now row h
    exact (insert_employee_data_ok_fields data cid an eid dur now row h).2.2.2.1

/-- Witness for `normalization_split` at a concrete parse success and a
concrete employee insert. -/
theorem normalization_split_witness :
    transcribe_and_analyze_audio
        (fun _ => some (.JObj [("phone_number", .JStr "98-7654-3210")]))
        (.success "x")
      = setKey [("phone_number", .JStr "98-7654-3210")] "phone_number"
          (.JStr (clean_phone_number (some "98-7654-3210"))) ∧
    (⟨"e", "n", 1, .JNull, 0, 0, .JNull, "- A", .JNull, 2, "t"⟩
        : EmployeeRow).improvement_suggestions
      = normalize_improvement_suggestions
          (jGet [("improvement_suggestions", .JList [.JStr "A"])]
            "improvement_suggestions" .JNull) :=
  ⟨(normalization_split (fun _ => some (.JObj [("phone_number", .JStr "98-7654-3210")]))
      "x" "98-7654-3210" [("phone_number", .JStr "98-7654-3210")] rfl rfl).1,
    (normalization_split (fun _ => some (.JObj [("phone_number", .JStr "98-7654-3210")]))
      "x" "98-7654-3210" [("phone_number", .JStr "98-7654-3210")] rfl rfl).2
      [("improvement_suggestions", .JList [.JStr "A"])] 1 "n" "e" 2 "t"
      ⟨"e", "n", 1, .JNull, 0, 0, .JNull, "- A", .JNull, 2, "t"⟩ rfl⟩

/-- C7: every successful pipeline run persists exactly one customer row
and exactly one employee row, both carrying the generated customer id,
which is also the customer id of the returned composite result; the run
performs inserts only, never updates or deletes. -/
theorem pipeline_referential_consistency (env : PipelineEnv) (local_path : String)
    (comp : CompositeResult)
    (h : (process_local_file_and_upload env local_path).outcome = .ok comp) :
    comp.customer_id = env.customer_id ∧
    ∃ crow erow,
      (process_local_file_and_upload env local_path).customers = [crow] ∧
      (process_local_file_and_upload env local_path).employees = [erow] ∧
      crow.customer_id = comp.customer_id ∧
      erow.customer_id = comp.customer_id := by
  rcases hu : env.uploadResult with e | gsm
  · simp [process_local_file_and_upload, hu] at h
  rcases hd : env.durationResult with e | d
  · simp [process_local_file_and_upload, hu, hd] at h
  rcases hr : resolve_agent_identity
      (transcribe_and_analyze_audio env.jsonParse env.modelResponse)
      (pathName local_path) with e | ids
  · simp [process_local_file_and_upload, hu, hd, hr] at h
  rcases hci : env.customerInsertError with _ | e
  swap
  · simp [process_local_file_and_upload, hu, hd, hr, hci] at h
  rcases hemp : insert_employee_data
      (transcribe_and_analyze_audio env.jsonParse env.modelResponse)
      env.customer_id ids.1 ids.2 d env.now with e | erow
  · simp [process_local_file_and_upload, hu, hd, hr, hci, hemp] at h
  rcases hei : env.employeeInsertError with _ | e
  swap
  · simp [process_local_file_and_upload, hu, hd, hr, hci, hemp, hei] at h
  have hp : process_local_file_and_upload env local_path =
      ⟨.ok ⟨gsm.1, env.customer_id, ids.1, ids.2,
          transcribe_and_analyze_audio env.jsonParse env.modelResponse⟩,
        [insert_customer_data
          (transcribe_and_analyze_audio env.jsonParse env.modelResponse)
          env.customer_id gsm.1 env.now],
        [erow]⟩ := by
    simp [process_local_file_and_upload, hu, hd, hr, hci, hemp, hei]
  have hcomp : comp = ⟨gsm.1, env.customer_id, ids.1, ids.2,
      transcribe_and_analyze_audio env.jsonParse env.modelResponse⟩ := by
    rw [hp] at h
    have h2 : Except.ok (ε := String)
        (⟨gsm.1, env.customer_id, ids.1, ids.2,
          transcribe_and_analyze_audio env.jsonParse env.modelResponse⟩
          : CompositeResult) = .ok comp := h
    exact (Except.ok.injEq _ _ ▸ h2 : _ = comp).symm
  subst hcomp
  rw [hp]
  exact ⟨rfl, _, erow,  rfl, rfl, rfl,
    (insert_employee_data_ok_fields _ _ _ _ _ _ _ hemp).1⟩

/-- Witness for `pipeline_referential_consistency` on a concrete
successful run. -/
theorem pipeline_referential_consistency_witness :
    (⟨"gs://x/y", 77, "PriyaMenon", "EMP5002", [("error", .JStr "m")]⟩
        : CompositeResult).customer_id = (77 : Int) ∧
    ∃ crow erow,
      (process_local_file_and_upload
        { uploadResult := .ok ("gs://x/y", "audio/wav"),
          modelResponse := .failure "m", jsonParse := fun _ => none,
          customer_id := 77, durationResult := .ok 5,
          customerInsertError := none, employeeInsertError := none,
          now := "t2" } "PriyaMenon-EMP5002.wav").customers = [crow] ∧
      (process_local_file_and_upload
        { uploadResult := .ok ("gs://x/y", "audio/wav"),
          modelResponse := .failure "m", jsonParse := fun _ => none,
          customer_id := 77, durationResult := .ok 5,
          customerInsertError := none, employeeInsertError := none,
          now := "t2" } "PriyaMenon-EMP5002.wav").employees = [erow] ∧
      crow.customer_id = (⟨"gs://x/y", 77, "PriyaMenon", "EMP5002",
          [("error", .JStr "m")]⟩ : CompositeResult).customer_id ∧
      erow.customer_id = (⟨"gs://x/y", 77, "PriyaMenon", "EMP5002",
          [("error", .JStr "m")]⟩ : CompositeResult).customer_id :=
  pipeline_referential_consistency
    { uploadResult := .ok ("gs://x/y", "audio/wav"),
      modelResponse := .failure "m", jsonParse := fun _ => none,
      customer_id := 77, durationResult := .ok 5,
      customerInsertError := none, employeeInsertError := none,
      now := "t2" } "PriyaMenon-EMP5002.wav"
    ⟨"gs://x/y", 77, "PriyaMenon", "EMP5002", [("error", .JStr "m")]⟩ rfl
